import Mathlib

/-!
# ThemeInput.jsx: a shallow embedding

Source: `src/frontend/src/components/ThemeInput.jsx` (40 lines, one React
function component).

What is modelled
* JavaScript strings are Lean `String`s; `String.prototype.trim` is `jsTrim`,
  which strips the ECMAScript `WhiteSpace` and `LineTerminator` code points
  from both ends.
* The bindings the component body declares are listed, in source order, in
  `declarations`.  An identifier is looked up there (`resolve`); line 5 of the
  source declares `theme` and `setTheme` a second time, and the model lets the
  later declaration rebind the name.  (A strict ECMAScript parser rejects the
  redeclaration outright; rebinding is the most lenient reading, under which
  the handlers can be run at all.  Both declarations are `useState("")`, so
  nothing proved below depends on which of the two slots `theme` names.)
* `setError` (line 11) and `error` (lines 30, 32) are used but declared
  nowhere in the file.  Both are resolved through `declarations` like every
  other identifier and come out unbound: calling `setError` and reading
  `error` are `ReferenceError`s.  The component state is therefore the two
  `useState` slots and nothing else; there is no error field.
* The user drives the component by events, a keystroke or a submission; the
  states the component can be in are those `runEvents` reaches from `mount`.
* An event handler is run to a `Run`: the state it leaves, the trace of
  observable effects in order, and whether it returned or threw.  The event
  method `e.preventDefault` and the `onSubmit` prop belong to the caller; they
  are recorded in the trace and assumed to return normally without touching
  the component.
-/

namespace ThemeInput

/-! ## Strings -/

/-- ECMAScript `WhiteSpace` (TAB, VT, FF, SP, NBSP, ZWNBSP and the Unicode
space separators) together with `LineTerminator` (LF, CR, LS, PS): the code
points `String.prototype.trim` removes. -/
def isJsWhiteSpace (c : Char) : Bool :=
  let n := c.toNat
  n = 0x09 || n = 0x0A || n = 0x0B || n = 0x0C || n = 0x0D || n = 0x20 ||
  n = 0xA0 || n = 0x1680 || (0x2000 ≤ n && n ≤ 0x200A) || n = 0x2028 ||
  n = 0x2029 || n = 0x202F || n = 0x205F || n = 0x3000 || n = 0xFEFF

/-- Strip the leading and the trailing white space of a list of characters. -/
def trimChars (cs : List Char) : List Char :=
  ((cs.dropWhile isJsWhiteSpace).reverse.dropWhile isJsWhiteSpace).reverse

/-- The method `String.prototype.trim`. -/
def jsTrim (s : String) : String := ⟨trimChars s.data⟩

/-- JavaScript truthiness of a string: every string but the empty one. -/
def truthy (s : String) : Bool := s.data != []

/-- A string made of white space only (the empty string included). -/
def isBlank (s : String) : Bool := s.data.all isJsWhiteSpace

/-! ## Scope -/

/-- What a declared name is bound to. -/
inductive Binding where
  | prop
  | stateValue (slot : Nat)
  | stateSetter (slot : Nat)
  | const
  deriving DecidableEq, Repr

/-- The bindings of the component body, in source order: the destructured
prop (line 3), the two `useState("")` destructurings (lines 4 and 5, the same
two names both times) and the handler (line 7). -/
def declarations : List (String × Binding) :=
  [ ("onSubmit", .prop),
    ("theme", .stateValue 0), ("setTheme", .stateSetter 0),
    ("theme", .stateValue 1), ("setTheme", .stateSetter 1),
    ("handleSubmit", .const) ]

/-- Look an identifier up among the declarations; a later declaration of a
name rebinds it. -/
def resolve (name : String) : Option Binding :=
  (declarations.reverse.find? (fun d => d.1 = name)).map Prod.snd

/-- How many declarations bind `name`. -/
def declCount (name : String) : Nat :=
  (declarations.filter (fun d => d.1 = name)).length

/-- The initial values of the state slots, one per `useState` call, in call
order (lines 4 and 5). -/
def useStateInits : List String := ["", ""]

/-! ## State -/

/-- The component state: the two `useState` slots (lines 4 and 5). -/
structure State where
  slot0 : String
  slot1 : String
  deriving DecidableEq, Repr

/-- The state on mount: every `useState` slot holds its initial value. -/
def mount : State :=
  { slot0 := useStateInits.getD 0 "", slot1 := useStateInits.getD 1 "" }

/-- Read a state slot. -/
def readSlot (st : State) : Nat → Option String
  | 0 => some st.slot0
  | 1 => some st.slot1
  | _ => none

/-- Write a state slot (what the setter returned by `useState` does). -/
def writeSlot (st : State) (k : Nat) (v : String) : State :=
  match k with
  | 0 => { st with slot0 := v }
  | 1 => { st with slot1 := v }
  | _ => st

/-! ## Runs -/

/-- A JavaScript exception. -/
inductive JsError where
  | referenceError (name : String)
  | typeError (name : String)
  deriving DecidableEq, Repr

/-- An observable effect of a handler. -/
inductive Effect where
  | preventDefault
  | setState (slot : Nat) (value : String)
  | onSubmit (arg : String)
  deriving DecidableEq, Repr

/-- How a handler ended. -/
inductive Outcome where
  | returned
  | threw (err : JsError)
  deriving DecidableEq, Repr

/-- The result of running a handler. -/
structure Run where
  state : State
  effects : List Effect
  outcome : Outcome
  deriving DecidableEq, Repr

/-- Evaluate an identifier that is read as a string value. -/
def readIdent (st : State) (name : String) : Except JsError String :=
  match resolve name with
  | some (.stateValue k) =>
    match readSlot st k with
    | some v => .ok v
    | none => .error (.referenceError name)
  | _ => .error (.referenceError name)

/-- Call `name(v)` where `name` is expected to be a state setter; `fx` is the
trace so far. -/
def callSetter (st : State) (fx : List Effect) (name : String) (v : String) : Run :=
  match resolve name with
  | some (.stateSetter k) => ⟨writeSlot st k v, fx ++ [.setState k v], .returned⟩
  | some _ => ⟨st, fx, .threw (.typeError name)⟩
  | none => ⟨st, fx, .threw (.referenceError name)⟩

/-- The fixed message of line 11. -/
def emptyThemeMessage : String := "Please enter a theme name."

/-- The submit handler, lines 7-16:
`e.preventDefault(); if (!theme.trim()) { setError(msg); return; }; onSubmit(theme);` -/
def handleSubmit (st : State) : Run :=
  let fx := [Effect.preventDefault]
  match readIdent st "theme" with
  | .error err => ⟨st, fx, .threw err⟩
  | .ok theme =>
    if !truthy (jsTrim theme) then
      callSetter st fx "setError" emptyThemeMessage
    else
      ⟨st, fx ++ [.onSubmit theme], .returned⟩

/-- The keystroke handler, line 28: `(e) => setTheme(e.target.value)`; `v` is
`e.target.value`. -/
def onChange (st : State) (v : String) : Run :=
  callSetter st [] "setTheme" v

/-- The value of the identifier `theme` in a state. -/
def theme (st : State) : String :=
  match readIdent st "theme" with
  | .ok v => v
  | .error _ => ""

/-- Line 27, `value={theme}`: the text the controlled input displays. -/
def inputValue (st : State) : String := theme st

/-- Line 30, `className={error ? 'error' : ''}`: the class of the input. The
identifier `error` is read like any other. -/
def inputClassName (st : State) : Except JsError String :=
  match readIdent st "error" with
  | .ok m => .ok (if truthy m then "error" else "")
  | .error err => .error err

/-- Line 32, `{error && <p className="error-text">{error}</p>}`: the text of
the error paragraph (`none`: no paragraph). The identifier `error` is read
like any other. -/
def errorParagraph (st : State) : Except JsError (Option String) :=
  match readIdent st "error" with
  | .ok m => .ok (if truthy m then some m else none)
  | .error err => .error err

/-- A user event: a keystroke that leaves `v` in the input, or a submission of
the form. -/
inductive Event where
  | keystroke (v : String)
  | submit
  deriving DecidableEq, Repr

/-- Run the handler of an event: line 28 for a keystroke, line 23 for a
submission. -/
def fire (st : State) : Event → Run
  | .keystroke v => onChange st v
  | .submit => handleSubmit st

/-- The state after a sequence of events; a handler that throws leaves the
state it had reached. -/
def runEvents (st : State) (evs : List Event) : State :=
  evs.foldl (fun s ev => (fire s ev).state) st

/-- The arguments of the `onSubmit` calls of a trace, in order. -/
def onSubmitArgs (fx : List Effect) : List String :=
  fx.filterMap (fun e => match e with | .onSubmit a => some a | _ => none)

/-! ## Basic facts -/

theorem resolve_theme : resolve "theme" = some (.stateValue 1) := by decide

theorem resolve_setTheme : resolve "setTheme" = some (.stateSetter 1) := by decide

theorem resolve_setError : resolve "setError" = none := by decide

theorem readIdent_theme (st : State) : readIdent st "theme" = .ok st.slot1 := by
  simp [readIdent, resolve_theme, readSlot]

theorem theme_eq (st : State) : theme st = st.slot1 := by
  simp [theme, readIdent_theme]

theorem dropWhile_nil_of_all (p : Char → Bool) (cs : List Char)
    (h : ∀ x ∈ cs.dropWhile p, p x = true) : cs.dropWhile p = [] := by
  induction cs with
  | nil => rfl
  | cons c cs ih =>
    by_cases hc : p c = true
    · simp only [List.dropWhile_cons_of_pos hc] at h ⊢
      exact ih h
    · exfalso
      simp only [List.dropWhile_cons_of_neg hc] at h
      exact hc (h c (List.mem_cons_self c cs))

theorem trimChars_eq_nil_iff (cs : List Char) :
    trimChars cs = [] ↔ cs.all isJsWhiteSpace = true := by
  unfold trimChars
  rw [List.reverse_eq_nil_iff, List.dropWhile_eq_nil_iff, List.all_eq_true]
  constructor
  · intro h
    have h2 : cs.dropWhile isJsWhiteSpace = [] :=
      dropWhile_nil_of_all _ _ (fun x hx => h x (List.mem_reverse.mpr hx))
    exact List.dropWhile_eq_nil_iff.mp h2
  · intro h x hx
    have h2 : cs.dropWhile isJsWhiteSpace = [] := List.dropWhile_eq_nil_iff.mpr h
    rw [h2] at hx
    simp at hx

/-- Trimming leaves nothing exactly when the string is blank. -/
theorem jsTrim_eq_empty_iff (s : String) : jsTrim s = "" ↔ isBlank s = true := by
  unfold jsTrim isBlank
  rw [← trimChars_eq_nil_iff]
  constructor
  · intro h
    exact congrArg String.data h
  · intro h
    rw [h]

theorem truthy_jsTrim (s : String) : truthy (jsTrim s) = !isBlank s := by
  by_cases h : isBlank s = true
  · have h2 := (jsTrim_eq_empty_iff s).mpr h
    rw [h2, h]
    rfl
  · have h2 : jsTrim s ≠ "" := fun e => h ((jsTrim_eq_empty_iff s).mp e)
    have h3 : (jsTrim s).data ≠ [] := fun e => h2 (String.ext e)
    simp only [Bool.not_eq_true] at h
    simp [truthy, h, h3]

/-- The valid branch: a non-blank theme. -/
theorem handleSubmit_of_nonblank (st : State) (h : isBlank (theme st) = false) :
    handleSubmit st = ⟨st, [.preventDefault, .onSubmit (theme st)], .returned⟩ := by
  rw [theme_eq] at h
  simp [handleSubmit, readIdent_theme, truthy_jsTrim, h, theme_eq]

/-- The blank branch: `setError` is unbound. -/
theorem handleSubmit_of_blank (st : State) (h : isBlank (theme st) = true) :
    handleSubmit st = ⟨st, [.preventDefault], .threw (.referenceError "setError")⟩ := by
  rw [theme_eq] at h
  simp [handleSubmit, readIdent_theme, truthy_jsTrim, h, callSetter, resolve_setError]

theorem onChange_eq (st : State) (v : String) :
    onChange st v = ⟨⟨st.slot0, v⟩, [.setState 1 v], .returned⟩ := by
  simp [onChange, callSetter, resolve_setTheme, writeSlot]

theorem isBlank_false_of_trim_ne (s : String) (h : jsTrim s ≠ "") : isBlank s = false := by
  cases hb : isBlank s with
  | false => rfl
  | true => exact absurd ((jsTrim_eq_empty_iff s).mpr hb) h

theorem resolve_error : resolve "error" = none := by decide

/-- Reading `error` throws in every state: no declaration binds it. -/
theorem errorParagraph_throws (st : State) :
    errorParagraph st = .error (.referenceError "error") := by
  simp [errorParagraph, readIdent, resolve_error]

/-- The submit handler writes no state, on either branch. -/
theorem handleSubmit_writes_nothing (st : State) :
    (handleSubmit st).state = st ∧ ∀ k v, Effect.setState k v ∉ (handleSubmit st).effects := by
  cases hb : isBlank (theme st) with
  | false =>
    rw [handleSubmit_of_nonblank st hb]
    refine ⟨rfl, ?_⟩
    intro k v hmem
    simp at hmem
  | true =>
    rw [handleSubmit_of_blank st hb]
    refine ⟨rfl, ?_⟩
    intro k v hmem
    simp at hmem

/-! ## The claims -/

/-- C1, as stated, fails: with theme `"  fantasy  "`, whose trimmed value
`"fantasy"` is non-empty, `handleSubmit` calls `onSubmit` with the raw
`"  fantasy  "` and not with `"fantasy"`. -/
theorem c1_trimmed_argument_counterexample :
    jsTrim (theme ⟨"", "  fantasy  "⟩) = "fantasy" ∧
    onSubmitArgs (handleSubmit ⟨"", "  fantasy  "⟩).effects = ["  fantasy  "] ∧
    onSubmitArgs (handleSubmit ⟨"", "  fantasy  "⟩).effects ≠ ["fantasy"] := by
  decide

/-- C1, amended: for every theme whose trimmed value is non-empty,
`handleSubmit` passes the theme itself, untrimmed, to `onSubmit`, in its one
call of it, and returns. -/
theorem c1_handleSubmit_passes_raw_theme (st : State) (h : jsTrim (theme st) ≠ "") :
    onSubmitArgs (handleSubmit st).effects = [theme st] ∧
    (handleSubmit st).outcome = .returned := by
  rw [handleSubmit_of_nonblank st (isBlank_false_of_trim_ne _ h)]
  exact ⟨rfl, rfl⟩

theorem c1_handleSubmit_passes_raw_theme_witness :
    jsTrim (theme ⟨"", "  fantasy  "⟩) ≠ "" ∧
    onSubmitArgs (handleSubmit ⟨"", "  fantasy  "⟩).effects =
      [theme ⟨"", "  fantasy  "⟩] ∧
    (handleSubmit ⟨"", "  fantasy  "⟩).outcome = .returned :=
  ⟨by decide, c1_handleSubmit_passes_raw_theme ⟨"", "  fantasy  "⟩ (by decide)⟩

/-- C2, the code at the failing inputs: submitting the blank themes `""` (the
state on mount) and `"   "` throws a `ReferenceError` for `setError` right
after `preventDefault`; no state is written, so no error message is set, and
reading `error` afterwards is itself a `ReferenceError`, not the message;
`onSubmit` is not called. -/
theorem c2_blank_submit_sets_no_error :
    isBlank (theme mount) = true ∧
    handleSubmit mount = ⟨mount, [.preventDefault], .threw (.referenceError "setError")⟩ ∧
    (∀ k, Effect.setState k emptyThemeMessage ∉ (handleSubmit mount).effects) ∧
    errorParagraph (handleSubmit mount).state = .error (.referenceError "error") ∧
    errorParagraph (handleSubmit mount).state ≠ .ok (some emptyThemeMessage) ∧
    onSubmitArgs (handleSubmit mount).effects = [] ∧
    isBlank (theme ⟨"", "   "⟩) = true ∧
    handleSubmit ⟨"", "   "⟩ =
      ⟨⟨"", "   "⟩, [.preventDefault], .threw (.referenceError "setError")⟩ := by
  refine ⟨by decide, by decide, ?_, errorParagraph_throws _, ?_, by decide, by decide,
    by decide⟩
  · intro k hmem
    rw [show (handleSubmit mount).effects = [.preventDefault] from by decide] at hmem
    simp at hmem
  · rw [errorParagraph_throws]
    intro h
    cases h

/-- C3, the code at the failing input: from the mount state the theme
`"fantasy"` is typed and submitted. The handler does call `onSubmit` exactly
once and returns, but there is no error message to be left empty: reading
`error`, as lines 30 and 32 do to render the form, throws a `ReferenceError`
on mount and after the submission alike, so neither state renders as a form
without an error. -/
theorem c3_valid_submit_error_unreadable :
    runEvents mount [.keystroke "fantasy"] = ⟨"", "fantasy"⟩ ∧
    handleSubmit ⟨"", "fantasy"⟩ =
      ⟨⟨"", "fantasy"⟩, [.preventDefault, .onSubmit "fantasy"], .returned⟩ ∧
    errorParagraph mount = .error (.referenceError "error") ∧
    inputClassName mount = .error (.referenceError "error") ∧
    errorParagraph (handleSubmit ⟨"", "fantasy"⟩).state = .error (.referenceError "error") ∧
    inputClassName (handleSubmit ⟨"", "fantasy"⟩).state = .error (.referenceError "error") ∧
    errorParagraph (handleSubmit ⟨"", "fantasy"⟩).state ≠ .ok none := by
  refine ⟨by decide, by decide, rfl, rfl, errorParagraph_throws _, rfl, ?_⟩
  rw [errorParagraph_throws]
  intro h
  cases h

/-- C4, the code at the failing input: with the blank theme `"   "` the
handler does not complete; it ends by throwing `ReferenceError: setError`,
and it leaves the state unwritten, with no error message in it. -/
theorem c4_blank_submit_throws :
    (handleSubmit ⟨"", "   "⟩).outcome = .threw (.referenceError "setError") ∧
    (handleSubmit ⟨"", "   "⟩).outcome ≠ .returned ∧
    (handleSubmit ⟨"", "   "⟩).state = ⟨"", "   "⟩ ∧
    errorParagraph (handleSubmit ⟨"", "   "⟩).state = .error (.referenceError "error") := by
  refine ⟨by decide, by decide, by decide, errorParagraph_throws _⟩

/-- C5, the code at the failing input: a blank submission, then `"fantasy"`
typed and submitted. The blank submission throws without recording an error,
so the valid submission does not start from a state that shows one; it runs
`preventDefault` and `onSubmit` and nothing else. In no state does
`handleSubmit` write anything: the handler has no statement that clears an
error message, and no event sequence reaches a state whose error paragraph
can be read. -/
theorem c5_no_invalid_state_no_clear :
    fire mount .submit = ⟨mount, [.preventDefault], .threw (.referenceError "setError")⟩ ∧
    runEvents mount [.submit, .keystroke "fantasy"] = ⟨"", "fantasy"⟩ ∧
    fire ⟨"", "fantasy"⟩ .submit =
      ⟨⟨"", "fantasy"⟩, [.preventDefault, .onSubmit "fantasy"], .returned⟩ ∧
    (∀ st : State, (handleSubmit st).state = st) ∧
    (∀ (st : State) (k : Nat) (v : String), Effect.setState k v ∉ (handleSubmit st).effects) ∧
    (∀ evs : List Event,
      errorParagraph (runEvents mount evs) = .error (.referenceError "error")) := by
  refine ⟨by decide, by decide, by decide, ?_, ?_, ?_⟩
  · intro st
    exact (handleSubmit_writes_nothing st).1
  · intro st
    exact (handleSubmit_writes_nothing st).2
  · intro evs
    exact errorParagraph_throws _

/-- C6: for every prior state and every input value `v`, the keystroke handler
returns, its one effect is the write of `v` itself, afterwards `theme` is
exactly `v`, and the value the input displays is `v`. -/
theorem c6_onChange_sets_theme_verbatim (st : State) (v : String) :
    (onChange st v).outcome = .returned ∧
    (∃ k, (onChange st v).effects = [.setState k v]) ∧
    theme (onChange st v).state = v ∧
    inputValue (onChange st v).state = v := by
  rw [onChange_eq]
  refine ⟨rfl, ⟨1, rfl⟩, ?_, ?_⟩
  · rw [theme_eq]
  · rw [inputValue, theme_eq]

/-- C7: for every non-blank theme, two submissions in a row call `onSubmit`
exactly twice, once per submission, each time with the same argument, and the
theme is after each submission what it was before. -/
theorem c7_double_submit (st : State) (hs : isBlank (theme st) = false) :
    onSubmitArgs (handleSubmit st).effects = [theme st] ∧
    onSubmitArgs (handleSubmit (handleSubmit st).state).effects = [theme st] ∧
    (onSubmitArgs ((handleSubmit st).effects ++
      (handleSubmit (handleSubmit st).state).effects)).length = 2 ∧
    theme (handleSubmit st).state = theme st ∧
    theme (handleSubmit (handleSubmit st).state).state = theme st := by
  have h1 := handleSubmit_of_nonblank st hs
  have h2 : (handleSubmit st).state = st := by rw [h1]
  rw [h2, h1]
  exact ⟨rfl, rfl, rfl, rfl, rfl⟩

theorem c7_double_submit_witness :
    isBlank (theme ⟨"", " space pirates"⟩) = false ∧
    (onSubmitArgs (handleSubmit ⟨"", " space pirates"⟩).effects
      = [theme ⟨"", " space pirates"⟩] ∧
    onSubmitArgs (handleSubmit (handleSubmit ⟨"", " space pirates"⟩).state).effects
      = [theme ⟨"", " space pirates"⟩] ∧
    (onSubmitArgs ((handleSubmit ⟨"", " space pirates"⟩).effects ++
      (handleSubmit (handleSubmit ⟨"", " space pirates"⟩).state).effects)).length = 2 ∧
    theme (handleSubmit ⟨"", " space pirates"⟩).state
      = theme ⟨"", " space pirates"⟩ ∧
    theme (handleSubmit (handleSubmit ⟨"", " space pirates"⟩).state).state
      = theme ⟨"", " space pirates"⟩) :=
  ⟨by decide, c7_double_submit ⟨"", " space pirates"⟩ (by decide)⟩

/-- C8, the code on mount: `theme` is declared twice and `setTheme` twice (two
state slots, both initialised to the empty string), `error` and `setError`
are declared nowhere, so there are two theme fields and no error field; the
theme on mount is empty. -/
theorem c8_declared_state_fields :
    declCount "theme" = 2 ∧ declCount "setTheme" = 2 ∧
    declCount "error" = 0 ∧ declCount "setError" = 0 ∧
    resolve "error" = none ∧ resolve "setError" = none ∧
    useStateInits = ["", ""] ∧
    mount = ⟨"", ""⟩ ∧ theme mount = "" := by
  decide

/-- C9, the code at the failing input: a blank submission, then the
keystroke `"a"`. The blank submission throws and records nothing, so the
keystroke does not start from a state that shows an error; the keystroke
handler itself does only the one write of the theme, and after it reading
`error` is still a `ReferenceError`: no error message is shown while the user
types. -/
theorem c9_no_error_while_typing :
    (fire mount .submit).outcome = .threw (.referenceError "setError") ∧
    runEvents mount [.submit] = mount ∧
    errorParagraph (runEvents mount [.submit]) = .error (.referenceError "error") ∧
    fire (runEvents mount [.submit]) (.keystroke "a") =
      ⟨⟨"", "a"⟩, [.setState 1 "a"], .returned⟩ ∧
    errorParagraph (runEvents mount [.submit, .keystroke "a"])
      = .error (.referenceError "error") ∧
    errorParagraph (runEvents mount [.submit, .keystroke "a"])
      ≠ .ok (some emptyThemeMessage) ∧
    declCount "error" = 0 := by
  refine ⟨by decide, by decide, errorParagraph_throws _, by decide, errorParagraph_throws _,
    ?_, by decide⟩
  rw [errorParagraph_throws]
  intro h
  cases h

/-- C10: for every theme, blank or not, the first effect of `handleSubmit` is
the call of `preventDefault`, and it is called exactly once. -/
theorem c10_preventDefault_first_once (st : State) :
    (handleSubmit st).effects.head? = some .preventDefault ∧
    (handleSubmit st).effects.count .preventDefault = 1 := by
  cases hb : isBlank (theme st) with
  | false =>
    rw [handleSubmit_of_nonblank st hb]
    refine ⟨rfl, ?_⟩
    simp [List.count_cons]
  | true =>
    rw [handleSubmit_of_blank st hb]
    refine ⟨rfl, ?_⟩
    simp [List.count_cons]

end ThemeInput
